import Mathlib

/-!
Shallow embedding of the climatology analysis engine of `app.py`
(NASA Space Apps weather-probability dashboard).

Numeric values carried by the data are embedded as rationals (`ℚ`); the
two standard deviations, which the source computes with pandas `.std()`
(sample convention, square root), are embedded as `Option ℝ`: `none`
models the IEEE NaN that pandas returns for a sample of size `< 2`, and
`some` carries the exact real value.  All other functions are translated
directly from the source.
-/

/-- A calendar date as parsed by `datetime.strptime(date_str, "%Y%m%d")`
in `process_nasa_data`. -/
structure NDate where
  year : ℕ
  month : ℕ
  day : ℕ
deriving DecidableEq

/-- One row of the dataframe built by `process_nasa_data` (app.py lines
212-221): one observation per year for the target calendar day.  The
source stores `rained` as the integer `1`/`0`; it is embedded as `Bool`. -/
structure DailyRecord where
  year : ℕ
  date : NDate
  temperature_c : ℚ
  temp_max_c : ℚ
  temp_min_c : ℚ
  precipitation_mm : ℚ
  rained : Bool
  wind_speed_ms : ℚ
deriving DecidableEq

/-- A raw NASA POWER variable series: a finite map from date to value,
embedded as an association list (a Python dict `date_str -> value`). -/
abbrev Series : Type := List (NDate × ℚ)

/-- `data.get(date_str)`: look up the value recorded for a date, if any. -/
def findVal (data : Series) (dt : NDate) : Option ℚ :=
  (data.find? (fun p => decide (p.1 = dt))).map Prod.snd

/-- The body of the loop of `process_nasa_data` (app.py lines 207-221):
build the record for one matched date.  `precip_data.get(date_str, 0)`
and `wind_data.get(date_str, 0)` default to `0`;
`temp_max_data.get(date_str, temp)` and `temp_min_data.get(date_str, temp)`
default to the mean temperature `temp` of that date; `rained` is
`1 if precip > 0.1 else 0`. -/
def buildRecord (temp_max_data temp_min_data precip_data wind_data : Series)
    (dt : NDate) (temp : ℚ) : DailyRecord :=
  let precip := (findVal precip_data dt).getD 0
  let wind := (findVal wind_data dt).getD 0
  let temp_max := (findVal temp_max_data dt).getD temp
  let temp_min := (findVal temp_min_data dt).getD temp
  { year := dt.year
    date := dt
    temperature_c := temp
    temp_max_c := temp_max
    temp_min_c := temp_min
    precipitation_mm := precip
    rained := decide (precip > 0.1)
    wind_speed_ms := wind }

/-- `process_nasa_data` (app.py lines 186-224): iterate over the entries
of the mean-temperature series `T2M` and keep exactly the dates whose
month and day match the target, building one record per kept date.  The
JSON unwrapping (`nasa_data["properties"]["parameter"]` and the
`parameters.get` calls) is plumbing; the five extracted series are taken
as arguments. -/
def process_nasa_data (temp_data temp_max_data temp_min_data precip_data wind_data : Series)
    (target_month target_day : ℕ) : List DailyRecord :=
  temp_data.filterMap fun p =>
    if p.1.month = target_month ∧ p.1.day = target_day then
      some (buildRecord temp_max_data temp_min_data precip_data wind_data p.1 p.2)
    else none

/-- Gregorian leap-year rule; `datetime.strptime` accepts a February 29
date string exactly for such years, so only they can carry a Feb 29 key. -/
def isLeapYear (y : ℕ) : Bool :=
  (y % 4 == 0) && (y % 100 != 0 || y % 400 == 0)

/-- Arithmetic mean of a list (pandas `.mean()`). -/
def mean (xs : List ℚ) : ℚ :=
  xs.sum / (xs.length : ℚ)

/-- Minimum of a list (pandas `.min()`; the source only applies it to
nonempty samples). -/
def listMin : List ℚ → ℚ
  | [] => 0
  | x :: xs => xs.foldl min x

/-- Maximum of a list (pandas `.max()`). -/
def listMax : List ℚ → ℚ
  | [] => 0
  | x :: xs => xs.foldl max x

/-- pandas `.std()`: sample standard deviation with the `N - 1`
convention.  For fewer than two values pandas returns NaN, modelled as
`none`. -/
noncomputable def sampleStd (xs : List ℚ) : Option ℝ :=
  if xs.length < 2 then none
  else some (Real.sqrt
    ((xs.map (fun x => (((x : ℝ) - ((mean xs : ℚ) : ℝ)) ^ 2))).sum / ((xs.length : ℝ) - 1)))

/-- The `stats` dictionary returned by `calculate_statistics`
(app.py lines 230-250). -/
structure Stats where
  temp_mean : ℚ
  temp_std : Option ℝ
  temp_min : ℚ
  temp_max : ℚ
  temp_max_mean : ℚ
  temp_min_mean : ℚ
  rain_probability : ℚ
  avg_rain_amount : ℚ
  total_rain_days : ℕ
  wind_mean : ℚ
  wind_std : Option ℝ
  wind_max : ℚ
  extreme_heat_days : ℚ
  extreme_cold_days : ℚ
  heavy_rain_days : ℚ
  years_analyzed : ℕ

/-- `calculate_statistics` (app.py lines 230-250), field for field. -/
noncomputable def calculate_statistics (df : List DailyRecord) : Stats :=
  let temps := df.map (fun r => r.temperature_c)
  let winds := df.map (fun r => r.wind_speed_ms)
  { temp_mean := mean temps
    temp_std := sampleStd temps
    temp_min := listMin temps
    temp_max := listMax temps
    temp_max_mean := mean (df.map (fun r => r.temp_max_c))
    temp_min_mean := mean (df.map (fun r => r.temp_min_c))
    rain_probability := ((df.countP (fun r => r.rained) : ℚ) / (df.length : ℚ)) * 100
    avg_rain_amount :=
      if df.countP (fun r => r.rained) > 0 then
        mean ((df.filter (fun r => r.rained)).map (fun r => r.precipitation_mm))
      else 0
    total_rain_days := df.countP (fun r => r.rained)
    wind_mean := mean winds
    wind_std := sampleStd winds
    wind_max := listMax winds
    extreme_heat_days := ((df.countP (fun r => decide (r.temperature_c > 32)) : ℚ) / (df.length : ℚ)) * 100
    extreme_cold_days := ((df.countP (fun r => decide (r.temperature_c < 0)) : ℚ) / (df.length : ℚ)) * 100
    heavy_rain_days := ((df.countP (fun r => decide (r.precipitation_mm > 25)) : ℚ) / (df.length : ℚ)) * 100
    years_analyzed := df.length }

/-- Linear interpolation between order statistics of an already sorted
list at a fractional rank `r`: `s[i] + (r - i) * (s[i+1] - s[i])` with
`i = floor r`, falling back to the last element when `i + 1` is out of
range.  This is the rank-evaluation step of `numpy.percentile` with the
default linear interpolation. -/
def interpAt (s : List ℚ) (r : ℚ) : ℚ :=
  if ⌊r⌋₊ + 1 < s.length then
    s.getD ⌊r⌋₊ 0 + (r - (⌊r⌋₊ : ℚ)) * (s.getD (⌊r⌋₊ + 1) 0 - s.getD ⌊r⌋₊ 0)
  else s.getD (s.length - 1) 0

/-- `numpy.percentile(xs, p)` with the default linear interpolation:
sort ascending and evaluate at rank `p / 100 * (n - 1)`. -/
def percentile (xs : List ℚ) (p : ℚ) : ℚ :=
  let s := xs.insertionSort (· ≤ ·)
  interpAt s (p * ((s.length : ℚ) - 1) / 100)

/-- The `temperature` entry of the `predictions` dictionary. -/
structure TempPred where
  expected : ℚ
  likely_range_low : ℚ
  likely_range_high : ℚ
  possible_min : ℚ
  possible_max : ℚ

/-- The `precipitation` entry of the `predictions` dictionary. -/
structure PrecipPred where
  probability : ℚ
  expected_amount : ℚ
  confidence : String

/-- The `wind` entry of the `predictions` dictionary.  Its range bounds
are computed from the `Option ℝ` standard deviation: the Python builtin
`max(0, x)` returns `0` when `x` is NaN (the comparison `NaN > 0` is
false, so the first argument is kept), hence `likely_range_low` is `0`
in the `none` case; `mean + NaN` is NaN, hence `likely_range_high`
propagates `none`. -/
structure WindPred where
  expected : ℚ
  likely_range_low : ℝ
  likely_range_high : Option ℝ
  possible_max : ℚ

/-- The full `predictions` dictionary. -/
structure Predictions where
  temperature : TempPred
  precipitation : PrecipPred
  wind : WindPred

/-- `predict_conditions` (app.py lines 252-277), field for field. -/
noncomputable def predict_conditions (df : List DailyRecord) (stats : Stats) : Predictions :=
  { temperature :=
    { expected := stats.temp_mean
      likely_range_low := percentile (df.map (fun r => r.temperature_c)) 25
      likely_range_high := percentile (df.map (fun r => r.temperature_c)) 75
      possible_min := stats.temp_min
      possible_max := stats.temp_max }
    precipitation :=
    { probability := stats.rain_probability
      expected_amount := stats.avg_rain_amount
      confidence := if stats.years_analyzed > 20 then "High" else "Medium" }
    wind :=
    { expected := stats.wind_mean
      likely_range_low :=
        match stats.wind_std with
        | some s => max 0 ((stats.wind_mean : ℝ) - s)
        | none => 0
      likely_range_high :=
        match stats.wind_std with
        | some s => some ((stats.wind_mean : ℝ) + s)
        | none => none
      possible_max := stats.wind_max } }

/-- Advisory text of the `temp_pred > 32` branch (app.py line 379). -/
def veryHotMsg : String :=
  "Very hot weather expected - Essential: shade structures, cooling stations, extra water"

/-- Advisory text of the `temp_pred > 28` branch (app.py line 381). -/
def hotMsg : String :=
  "Hot weather expected - Provide shade, ice, and hydration stations"

/-- Advisory text of the `temp_pred < 5` branch (app.py line 383). -/
def coldMsg : String :=
  "Cold weather expected - Arrange heating, warm drinks, and shelter"

/-- Advisory text of the `temp_pred < 15` branch (app.py line 385). -/
def coolMsg : String :=
  "Cool weather - Guests should bring layers"

/-- The rain advisory group (app.py lines 368-375): an if/elif chain
that always emits exactly one message. -/
def rainMessage (prob : ℚ) : String :=
  if prob > 70 then "CRITICAL: Very high rain chance - Book indoor backup venue immediately!"
  else if prob > 50 then "High rain probability - Have substantial rain protection (tents, umbrellas)"
  else if prob > 30 then "Moderate rain chance - Prepare rain contingency plan"
  else "Low rain probability - Weather looks favorable!"

/-- The temperature advisory group (app.py lines 377-385): an if/elif
chain with no else branch, so it emits at most one message. -/
def tempMessage (t : ℚ) : Option String :=
  if t > 32 then some veryHotMsg
  else if t > 28 then some hotMsg
  else if t < 5 then some coldMsg
  else if t < 15 then some coolMsg
  else none

/-- The heat-wave advisory (app.py lines 387-388). -/
def heatWaveMessage (ehd : ℚ) : Option String :=
  if ehd > 15 then
    some "WARNING: Notable heat wave risk - Monitor weather forecasts closely as date approaches"
  else none

/-- The wind advisory group (app.py lines 390-393). -/
def windMessage (w : ℚ) : Option String :=
  if w > 12 then some "Strong winds expected - Secure all decorations, tents, and lightweight items"
  else if w > 8 then some "Breezy conditions possible - Use weighted decorations"
  else none

/-- The `recommendations` list built at app.py lines 367-393: the four
advisory groups are evaluated independently and their outputs appended
in source order (rain, temperature, heat wave, wind). -/
def recommendations (predictions : Predictions) (stats : Stats) : List String :=
  [rainMessage predictions.precipitation.probability]
    ++ (tempMessage predictions.temperature.expected).toList
    ++ (heatWaveMessage stats.extreme_heat_days).toList
    ++ (windMessage predictions.wind.expected).toList

/-- The four messages the temperature advisory group can emit. -/
def tempGroupMsgs : List String :=
  [veryHotMsg, hotMsg, coldMsg, coolMsg]

/-- A concrete dry observation used to exercise the theorems. -/
def sampleRec : DailyRecord :=
  { year := 2000, date := ⟨2000, 6, 15⟩, temperature_c := 20, temp_max_c := 25,
    temp_min_c := 15, precipitation_mm := 0, rained := false, wind_speed_ms := 5 }

/-- A concrete rainy observation used to exercise the theorems. -/
def sampleRec2 : DailyRecord :=
  { year := 2001, date := ⟨2001, 6, 15⟩, temperature_c := 24, temp_max_c := 28,
    temp_min_c := 18, precipitation_mm := 3, rained := true, wind_speed_ms := 7 }

/-- A concrete temperature series used to exercise the theorems: two
years have a June 15 reading, one date is off-target. -/
def tempSeriesW : Series :=
  [(⟨2000, 6, 15⟩, 20), (⟨2001, 6, 15⟩, 22), (⟨2001, 7, 1⟩, 30)]

/-- A concrete precipitation series covering only one of the matched
dates, used to exercise the defaulting theorems. -/
def precipSeriesW : Series := [(⟨2000, 6, 15⟩, 5)]

/-- A concrete temperature series whose February 29 keys appear exactly
in the leap years 4 and 8 of the range 3..9. -/
def tempSeriesLeap : Series := [(⟨4, 2, 29⟩, 1), (⟨8, 2, 29⟩, 2), (⟨5, 3, 1⟩, 3)]

/-- A concrete statistics record used to exercise the advisory theorems. -/
def sampleStats : Stats :=
  { temp_mean := 20, temp_std := none, temp_min := 10, temp_max := 30,
    temp_max_mean := 25, temp_min_mean := 15, rain_probability := 0,
    avg_rain_amount := 0, total_rain_days := 0, wind_mean := 5, wind_std := none,
    wind_max := 8, extreme_heat_days := 0, extreme_cold_days := 0,
    heavy_rain_days := 0, years_analyzed := 10 }

/-- A concrete predictions record used to exercise the advisory theorems. -/
noncomputable def samplePredictions : Predictions :=
  { temperature := ⟨20, 15, 25, 10, 30⟩
    precipitation := ⟨0, 0, "Medium"⟩
    wind := ⟨5, 0, none, 8⟩ }

/-! ### Helper lemmas about `calculate_statistics` -/

lemma years_analyzed_eq (df : List DailyRecord) :
    (calculate_statistics df).years_analyzed = df.length := rfl

lemma rain_probability_def (df : List DailyRecord) :
    (calculate_statistics df).rain_probability
      = ((df.countP (fun r => r.rained) : ℚ) / (df.length : ℚ)) * 100 := rfl

lemma rainProb_nonneg (df : List DailyRecord) :
    0 ≤ (calculate_statistics df).rain_probability := by
  rw [rain_probability_def]
  positivity

lemma rainProb_le_100 (df : List DailyRecord) (h : df ≠ []) :
    (calculate_statistics df).rain_probability ≤ 100 := by
  rw [rain_probability_def]
  have hn : (0 : ℚ) < (df.length : ℚ) := by exact_mod_cast List.length_pos.mpr h
  have hc : (df.countP (fun r => r.rained) : ℚ) ≤ (df.length : ℚ) := by
    exact_mod_cast List.countP_le_length _
  have hdiv : (df.countP (fun r => r.rained) : ℚ) / (df.length : ℚ) ≤ 1 := by
    rw [div_le_one hn]
    exact hc
  nlinarith

lemma rainProb_eq_zero_iff (df : List DailyRecord) (h : df ≠ []) :
    (calculate_statistics df).rain_probability = 0 ↔ ∀ r ∈ df, r.rained = false := by
  rw [rain_probability_def]
  have hn : ((df.length : ℚ)) ≠ 0 :=
    Nat.cast_ne_zero.mpr (List.length_pos.mpr h).ne'
  constructor
  · intro h0
    rcases mul_eq_zero.mp h0 with h1 | h1
    · rcases div_eq_zero_iff.mp h1 with h2 | h2
      · have hc : df.countP (fun r => r.rained) = 0 := by exact_mod_cast h2
        intro r hr
        have := List.countP_eq_zero.mp hc r hr
        simpa using this
      · exact absurd h2 hn
    · norm_num at h1
  · intro hall
    have hc : df.countP (fun r => r.rained) = 0 :=
      List.countP_eq_zero.mpr (fun r hr => by simp [hall r hr])
    rw [hc]
    simp

/-! ### Claims C2, C3, C4 -/

/-- **C2**: for every sample, the precipitation confidence label is
"High" exactly when strictly more than 20 years were analyzed, is
"Medium" otherwise, and in particular exactly 20 years yields "Medium". -/
theorem claim_C2_confidence_iff (df : List DailyRecord) :
    ((predict_conditions df (calculate_statistics df)).precipitation.confidence = "High"
      ↔ 20 < df.length)
    ∧ ((predict_conditions df (calculate_statistics df)).precipitation.confidence = "Medium"
      ↔ df.length ≤ 20)
    ∧ (df.length = 20 →
      (predict_conditions df (calculate_statistics df)).precipitation.confidence = "Medium") := by
  have hconf : (predict_conditions df (calculate_statistics df)).precipitation.confidence
      = if df.length > 20 then "High" else "Medium" := rfl
  by_cases h : 20 < df.length
  · rw [hconf, if_pos h]
    refine ⟨by simpa using h, ⟨fun he => absurd he (by decide), fun hle => absurd h (by omega)⟩,
      fun h20 => absurd h (by omega)⟩
  · rw [hconf, if_neg h]
    exact ⟨⟨fun he => absurd he (by decide), fun hl => absurd hl h⟩,
      ⟨fun _ => by omega, fun _ => rfl⟩, fun _ => rfl⟩

/-- Witness for C2 at a concrete sample of exactly 20 years. -/
theorem claim_C2_witness :
    (predict_conditions (List.replicate 20 sampleRec)
      (calculate_statistics (List.replicate 20 sampleRec))).precipitation.confidence = "Medium" :=
  (claim_C2_confidence_iff (List.replicate 20 sampleRec)).2.2 (by simp)

/-- **C3**: for every non-empty sample, `rain_probability` equals
(count of rained observations / years analyzed) times 100, lies in
`[0, 100]`, and vanishes exactly when no observation rained. -/
theorem claim_C3_rain_probability (df : List DailyRecord) (h : df ≠ []) :
    (calculate_statistics df).rain_probability
      = ((df.countP (fun r => r.rained) : ℚ)
          / ((calculate_statistics df).years_analyzed : ℚ)) * 100
    ∧ 0 ≤ (calculate_statistics df).rain_probability
    ∧ (calculate_statistics df).rain_probability ≤ 100
    ∧ ((calculate_statistics df).rain_probability = 0 ↔ ∀ r ∈ df, r.rained = false) :=
  ⟨rfl, rainProb_nonneg df, rainProb_le_100 df h, rainProb_eq_zero_iff df h⟩

/-- Witness for C3 at a concrete two-observation sample. -/
theorem claim_C3_witness :
    0 ≤ (calculate_statistics [sampleRec, sampleRec2]).rain_probability
    ∧ (calculate_statistics [sampleRec, sampleRec2]).rain_probability ≤ 100 :=
  ⟨(claim_C3_rain_probability [sampleRec, sampleRec2] (by simp)).2.1,
   (claim_C3_rain_probability [sampleRec, sampleRec2] (by simp)).2.2.1⟩

/-- **C4**: `avg_rain_amount` is the mean precipitation over the rained
observations when there is at least one, is `0` when no observation
rained, and vanishes whenever `rain_probability` does. -/
theorem claim_C4_avg_rain_amount (df : List DailyRecord) (h : df ≠ []) :
    (0 < df.countP (fun r => r.rained) →
      (calculate_statistics df).avg_rain_amount
        = mean ((df.filter (fun r => r.rained)).map (fun r => r.precipitation_mm)))
    ∧ ((∀ r ∈ df, r.rained = false) → (calculate_statistics df).avg_rain_amount = 0)
    ∧ ((calculate_statistics df).rain_probability = 0 →
      (calculate_statistics df).avg_rain_amount = 0) := by
  have hdef : (calculate_statistics df).avg_rain_amount
      = if df.countP (fun r => r.rained) > 0 then
          mean ((df.filter (fun r => r.rained)).map (fun r => r.precipitation_mm))
        else 0 := rfl
  refine ⟨?_, ?_, ?_⟩
  · intro hc
    rw [hdef, if_pos hc]
  · intro hall
    have hc : df.countP (fun r => r.rained) = 0 :=
      List.countP_eq_zero.mpr (fun r hr => by simp [hall r hr])
    rw [hdef, if_neg (by omega)]
  · intro h0
    have hall := (rainProb_eq_zero_iff df h).mp h0
    have hc : df.countP (fun r => r.rained) = 0 :=
      List.countP_eq_zero.mpr (fun r hr => by simp [hall r hr])
    rw [hdef, if_neg (by omega)]

/-- Witness for C4 at concrete samples with and without rain. -/
theorem claim_C4_witness :
    (calculate_statistics [sampleRec]).avg_rain_amount = 0
    ∧ (calculate_statistics [sampleRec, sampleRec2]).avg_rain_amount
        = mean (([sampleRec, sampleRec2].filter (fun r => r.rained)).map
            (fun r => r.precipitation_mm)) :=
  ⟨(claim_C4_avg_rain_amount [sampleRec] (by simp)).2.1 (by decide),
   (claim_C4_avg_rain_amount [sampleRec, sampleRec2] (by simp)).1 (by decide)⟩

/-! ### Claims C1, C7, C9, C10 -/

/-- **C1**: a sample of size 1 has an undefined (NaN) standard deviation,
yet statistics and predictions are still produced: the rain probability
is a well-defined value in `[0, 100]`, it is forwarded into the
prediction, the NaN-derived wind bounds degrade gracefully, and the
degenerate sample is surfaced as the low-confidence label "Medium"
(never "High") on the precipitation prediction. -/
theorem claim_C1_degenerate_sample (df : List DailyRecord) (h : df.length = 1) :
    (calculate_statistics df).temp_std = none
    ∧ (calculate_statistics df).wind_std = none
    ∧ (calculate_statistics df).years_analyzed = 1
    ∧ 0 ≤ (calculate_statistics df).rain_probability
    ∧ (calculate_statistics df).rain_probability ≤ 100
    ∧ (predict_conditions df (calculate_statistics df)).precipitation.probability
        = (calculate_statistics df).rain_probability
    ∧ (predict_conditions df (calculate_statistics df)).precipitation.confidence = "Medium"
    ∧ (predict_conditions df (calculate_statistics df)).precipitation.confidence ≠ "High"
    ∧ (predict_conditions df (calculate_statistics df)).wind.likely_range_low = 0
    ∧ (predict_conditions df (calculate_statistics df)).wind.likely_range_high = none := by
  have hne : df ≠ [] := by
    intro he
    rw [he] at h
    simp at h
  have htstd : (calculate_statistics df).temp_std = none := by
    show sampleStd (df.map (fun r => r.temperature_c)) = none
    simp [sampleStd, h]
  have hwstd : (calculate_statistics df).wind_std = none := by
    show sampleStd (df.map (fun r => r.wind_speed_ms)) = none
    simp [sampleStd, h]
  have hconf : (predict_conditions df (calculate_statistics df)).precipitation.confidence
      = if df.length > 20 then "High" else "Medium" := rfl
  have hmed : (predict_conditions df (calculate_statistics df)).precipitation.confidence
      = "Medium" := by
    rw [hconf, h]
    norm_num
  refine ⟨htstd, hwstd, h, rainProb_nonneg df, rainProb_le_100 df hne, rfl, hmed, ?_, ?_, ?_⟩
  · rw [hmed]
    decide
  · simp only [predict_conditions]
    rw [hwstd]
  · simp only [predict_conditions]
    rw [hwstd]

/-- Witness for C1 at a concrete one-observation sample. -/
theorem claim_C1_witness :
    (calculate_statistics [sampleRec]).temp_std = none
    ∧ (predict_conditions [sampleRec] (calculate_statistics [sampleRec])).precipitation.confidence
        = "Medium" :=
  ⟨(claim_C1_degenerate_sample [sampleRec] rfl).1,
   (claim_C1_degenerate_sample [sampleRec] rfl).2.2.2.2.2.2.1⟩

/-- **C7**: whenever the wind standard deviation is defined (sample of
size at least 2), the wind likely range is
`(max 0 (mean - std), mean + std)`, and its lower bound is never
negative. -/
theorem claim_C7_wind_range (df : List DailyRecord) (h : 2 ≤ df.length) :
    ∃ s : ℝ, (calculate_statistics df).wind_std = some s
      ∧ (predict_conditions df (calculate_statistics df)).wind.likely_range_low
          = max 0 (((calculate_statistics df).wind_mean : ℝ) - s)
      ∧ (predict_conditions df (calculate_statistics df)).wind.likely_range_high
          = some (((calculate_statistics df).wind_mean : ℝ) + s)
      ∧ 0 ≤ (predict_conditions df (calculate_statistics df)).wind.likely_range_low := by
  have hlen : ¬ (df.map (fun r => r.wind_speed_ms)).length < 2 := by
    simp only [List.length_map]
    omega
  have hwstd : ∃ s : ℝ, (calculate_statistics df).wind_std = some s := by
    show ∃ s, sampleStd (df.map (fun r => r.wind_speed_ms)) = some s
    rw [sampleStd, if_neg hlen]
    exact ⟨_, rfl⟩
  obtain ⟨s, hs⟩ := hwstd
  refine ⟨s, hs, ?_, ?_, ?_⟩
  · simp only [predict_conditions]
    rw [hs]
  · simp only [predict_conditions]
    rw [hs]
  · simp only [predict_conditions]
    rw [hs]
    exact le_max_left 0 _

/-- Witness for C7 at a concrete two-observation sample. -/
theorem claim_C7_witness :
    0 ≤ (predict_conditions [sampleRec, sampleRec2]
        (calculate_statistics [sampleRec, sampleRec2])).wind.likely_range_low := by
  obtain ⟨s, hs, hlow, hhigh, hpos⟩ :=
    claim_C7_wind_range [sampleRec, sampleRec2] (by simp)
  exact hpos

/-- **C9**: the temperature advisory chain uses strict thresholds with
first-match-wins: exactly 32 degrees falls in the hot bucket (not the
very-hot one), below 5 gives the cold message, `[5, 15)` gives the cool
message, and the temperature group contributes at most one message to
the full recommendation list whatever the other groups emit. -/
theorem claim_C9_temperature_advisory (P : Predictions) (S : Stats) (t : ℚ) :
    tempMessage 32 = some hotMsg
    ∧ tempMessage 32 ≠ some veryHotMsg
    ∧ (t < 5 → tempMessage t = some coldMsg)
    ∧ (5 ≤ t → t < 15 → tempMessage t = some coolMsg)
    ∧ (recommendations P S).countP (fun m => decide (m ∈ tempGroupMsgs)) ≤ 1 := by
  have h32 : tempMessage 32 = some hotMsg := by
    unfold tempMessage
    rw [if_neg (by norm_num), if_pos (by norm_num)]
  refine ⟨h32, ?_, ?_, ?_, ?_⟩
  · rw [h32]
    intro hcon
    exact absurd (Option.some.inj hcon) (by decide)
  · intro ht
    unfold tempMessage
    rw [if_neg (by linarith), if_neg (by linarith), if_pos ht]
  · intro h5 h15
    unfold tempMessage
    rw [if_neg (by linarith), if_neg (by linarith), if_neg (not_lt.mpr h5), if_pos h15]
  · unfold recommendations
    rw [List.countP_append, List.countP_append, List.countP_append]
    have hrain : List.countP (fun m => decide (m ∈ tempGroupMsgs))
        [rainMessage P.precipitation.probability] = 0 := by
      unfold rainMessage
      split_ifs <;> decide
    have htmp : List.countP (fun m => decide (m ∈ tempGroupMsgs))
        (tempMessage P.temperature.expected).toList ≤ 1 := by
      cases tempMessage P.temperature.expected with
      | none => simp
      | some a =>
        calc List.countP (fun m => decide (m ∈ tempGroupMsgs)) [a]
            ≤ [a].length := List.countP_le_length _
          _ = 1 := rfl
    have hheat : List.countP (fun m => decide (m ∈ tempGroupMsgs))
        (heatWaveMessage S.extreme_heat_days).toList = 0 := by
      unfold heatWaveMessage
      split_ifs <;> decide
    have hwind : List.countP (fun m => decide (m ∈ tempGroupMsgs))
        (windMessage P.wind.expected).toList = 0 := by
      unfold windMessage
      split_ifs <;> decide
    omega

/-- Witness for C9 at concrete temperatures and a concrete prediction
record. -/
theorem claim_C9_witness :
    tempMessage 3 = some coldMsg
    ∧ tempMessage 10 = some coolMsg
    ∧ (recommendations samplePredictions sampleStats).countP
        (fun m => decide (m ∈ tempGroupMsgs)) ≤ 1 :=
  ⟨(claim_C9_temperature_advisory samplePredictions sampleStats 3).2.2.1 (by norm_num),
   (claim_C9_temperature_advisory samplePredictions sampleStats 10).2.2.2.1
     (by norm_num) (by norm_num),
   (claim_C9_temperature_advisory samplePredictions sampleStats 10).2.2.2.2⟩

/-- **C10**: for an admitted date whose max- or min-temperature series
has no entry, the produced observation falls back to the mean
temperature in `temp_max_c` and `temp_min_c`, and the year is still
admitted into the sample. -/
theorem claim_C10_temp_default (temp_data tmax tmin pr wd : Series)
    (dt : NDate) (t : ℚ) (m d : ℕ)
    (hmem : (dt, t) ∈ temp_data) (hm : dt.month = m) (hd : dt.day = d)
    (hmax : findVal tmax dt = none) (hmin : findVal tmin dt = none) :
    (buildRecord tmax tmin pr wd dt t).temp_max_c = t
    ∧ (buildRecord tmax tmin pr wd dt t).temp_min_c = t
    ∧ buildRecord tmax tmin pr wd dt t ∈ process_nasa_data temp_data tmax tmin pr wd m d := by
  refine ⟨?_, ?_, ?_⟩
  · show ((findVal tmax dt).getD t) = t
    rw [hmax]
    rfl
  · show ((findVal tmin dt).getD t) = t
    rw [hmin]
    rfl
  · unfold process_nasa_data
    exact List.mem_filterMap.mpr ⟨(dt, t), hmem, by rw [if_pos ⟨hm, hd⟩]⟩

/-- Witness for C10 at a concrete series with empty max/min series. -/
theorem claim_C10_witness :
    (buildRecord [] [] precipSeriesW [] ⟨2000, 6, 15⟩ 20).temp_max_c = 20
    ∧ (buildRecord [] [] precipSeriesW [] ⟨2000, 6, 15⟩ 20).temp_min_c = 20 := by
  obtain ⟨h1, h2, h3⟩ := claim_C10_temp_default tempSeriesW [] [] precipSeriesW []
    ⟨2000, 6, 15⟩ 20 6 15 (by decide) rfl rfl rfl rfl
  exact ⟨h1, h2⟩

/-! ### Helper lemmas about `process_nasa_data` -/

lemma process_nasa_data_eq (temp_data tmax tmin pr wd : Series) (m d : ℕ) :
    process_nasa_data temp_data tmax tmin pr wd m d
      = (temp_data.filter (fun p => decide (p.1.month = m ∧ p.1.day = d))).map
          (fun p => buildRecord tmax tmin pr wd p.1 p.2) := by
  induction temp_data with
  | nil => rfl
  | cons a l ih =>
    by_cases hc : a.1.month = m ∧ a.1.day = d
    · have h1 : process_nasa_data (a :: l) tmax tmin pr wd m d
          = buildRecord tmax tmin pr wd a.1 a.2 :: process_nasa_data l tmax tmin pr wd m d := by
        simp only [process_nasa_data, List.filterMap_cons]
        rw [if_pos hc]
      rw [h1, ih, List.filter_cons_of_pos (by simpa using hc), List.map_cons]
    · have h1 : process_nasa_data (a :: l) tmax tmin pr wd m d
          = process_nasa_data l tmax tmin pr wd m d := by
        simp only [process_nasa_data, List.filterMap_cons]
        rw [if_neg hc]
      rw [h1, ih, List.filter_cons_of_neg (by simpa using hc)]

lemma countP_eq_ite_of_nodup {α : Type} [DecidableEq α] :
    ∀ (l : List α), l.Nodup → ∀ (a : α),
      l.countP (fun x => decide (x = a)) = if a ∈ l then 1 else 0
  | [], _, a => by simp
  | b :: l, hnd, a => by
    rw [List.nodup_cons] at hnd
    rw [List.countP_cons]
    rcases eq_or_ne b a with hba | hba
    · subst hba
      have h0 : l.countP (fun x => decide (x = b)) = 0 :=
        List.countP_eq_zero.mpr (fun x hx => by
          simp only [decide_eq_true_eq]
          exact fun hxb => hnd.1 (hxb ▸ hx))
      simp [h0]
    · rw [countP_eq_ite_of_nodup l hnd.2 a]
      have hdec : (decide (b = a)) = false := by simp [hba]
      rw [hdec]
      simp [List.mem_cons, Ne.symm hba]

lemma countP_year_eq (temp_data tmax tmin pr wd : Series) (m d y : ℕ) :
    (process_nasa_data temp_data tmax tmin pr wd m d).countP (fun r => decide (r.year = y))
      = (temp_data.map Prod.fst).countP (fun dt => decide (dt = NDate.mk y m d)) := by
  induction temp_data with
  | nil => rfl
  | cons a l ih =>
    obtain ⟨⟨ay, am, ad⟩, av⟩ := a
    by_cases hc : am = m ∧ ad = d
    · have h1 : process_nasa_data ((⟨⟨ay, am, ad⟩, av⟩ : NDate × ℚ) :: l) tmax tmin pr wd m d
          = buildRecord tmax tmin pr wd ⟨ay, am, ad⟩ av :: process_nasa_data l tmax tmin pr wd m d := by
        simp only [process_nasa_data, List.filterMap_cons]
        rw [if_pos hc]
      rw [h1, List.countP_cons, List.map_cons, List.countP_cons, ih]
      congr 1
      obtain ⟨rfl, rfl⟩ := hc
      have hyear : (buildRecord tmax tmin pr wd ⟨ay, am, ad⟩ av).year = ay := rfl
      rw [hyear]
      have hiff : (ay = y) ↔ ((⟨ay, am, ad⟩ : NDate) = NDate.mk y am ad) := by
        simp [NDate.mk.injEq]
      rw [decide_eq_decide.mpr hiff]
    · have h1 : process_nasa_data ((⟨⟨ay, am, ad⟩, av⟩ : NDate × ℚ) :: l) tmax tmin pr wd m d
          = process_nasa_data l tmax tmin pr wd m d := by
        simp only [process_nasa_data, List.filterMap_cons]
        rw [if_neg hc]
      rw [h1, List.map_cons, List.countP_cons, ih]
      have hdec : (decide ((⟨ay, am, ad⟩ : NDate) = NDate.mk y m d)) = false := by
        simp only [decide_eq_false_iff_not]
        intro he
        cases he
        exact hc ⟨rfl, rfl⟩
      rw [hdec]
      simp

/-! ### Claim C5 -/

/-- **C5**: with distinct dates in the raw temperature series, the
aggregation admits exactly one observation for year `y` precisely when a
temperature reading exists for the date `(y, month, day)`; an admitted
date with no precipitation or wind entry still yields an observation,
with those fields defaulted to `0`; and every produced observation has
`rained` true exactly when its precipitation exceeds `0.1` mm. -/
theorem claim_C5_aggregation (temp_data tmax tmin pr wd : Series) (m d : ℕ)
    (hnd : (temp_data.map Prod.fst).Nodup) :
    (∀ y : ℕ,
      (process_nasa_data temp_data tmax tmin pr wd m d).countP (fun r => decide (r.year = y))
        = if (NDate.mk y m d) ∈ temp_data.map Prod.fst then 1 else 0)
    ∧ (∀ p ∈ temp_data, p.1.month = m → p.1.day = d →
        findVal pr p.1 = none → findVal wd p.1 = none →
          buildRecord tmax tmin pr wd p.1 p.2 ∈ process_nasa_data temp_data tmax tmin pr wd m d
          ∧ (buildRecord tmax tmin pr wd p.1 p.2).precipitation_mm = 0
          ∧ (buildRecord tmax tmin pr wd p.1 p.2).wind_speed_ms = 0)
    ∧ (∀ r ∈ process_nasa_data temp_data tmax tmin pr wd m d,
        (r.rained = true ↔ r.precipitation_mm > 0.1)) := by
  refine ⟨?_, ?_, ?_⟩
  · intro y
    rw [countP_year_eq]
    exact countP_eq_ite_of_nodup _ hnd _
  · intro p hp hm hd hpr hwd
    refine ⟨?_, ?_, ?_⟩
    · unfold process_nasa_data
      exact List.mem_filterMap.mpr ⟨p, hp, by rw [if_pos ⟨hm, hd⟩]⟩
    · show ((findVal pr p.1).getD 0) = 0
      rw [hpr]
      rfl
    · show ((findVal wd p.1).getD 0) = 0
      rw [hwd]
      rfl
  · intro r hr
    unfold process_nasa_data at hr
    obtain ⟨p, hp, hpr⟩ := List.mem_filterMap.mp hr
    by_cases hc : p.1.month = m ∧ p.1.day = d
    · rw [if_pos hc] at hpr
      obtain rfl := Option.some.inj hpr
      show (decide (((findVal pr p.1).getD 0) > 0.1) = true) ↔ (((findVal pr p.1).getD 0) > 0.1)
      exact ⟨of_decide_eq_true, decide_eq_true⟩
    · rw [if_neg hc] at hpr
      exact absurd hpr (by simp)

/-- Witness for C5 at a concrete temperature series with a partially
missing precipitation series and an entirely missing wind series. -/
theorem claim_C5_witness :
    ((process_nasa_data tempSeriesW [] [] precipSeriesW [] 6 15).countP
        (fun r => decide (r.year = 2000))
      = if (NDate.mk 2000 6 15) ∈ tempSeriesW.map Prod.fst then 1 else 0)
    ∧ ((buildRecord [] [] precipSeriesW [] ⟨2001, 6, 15⟩ 22).wind_speed_ms = 0) := by
  have h := claim_C5_aggregation tempSeriesW [] [] precipSeriesW [] 6 15 (by decide)
  refine ⟨h.1 2000, ?_⟩
  have h2 := h.2.1 (⟨⟨2001, 6, 15⟩, 22⟩ : NDate × ℚ) (by decide) rfl rfl rfl rfl
  exact h2.2.2

/-! ### Claim C6 -/

/-- **C6**: when the target day is February 29 and the temperature
series has distinct date keys whose February 29 entries are exactly the
leap years of the range `y0..y1`, the aggregated sample has one
observation per leap year in range: its length is the number of leap
years in the range, not the full range length. -/
theorem claim_C6_feb29_leap_years (temp_data tmax tmin pr wd : Series) (y0 y1 : ℕ)
    (hnd : (temp_data.map Prod.fst).Nodup)
    (hdom : ∀ p ∈ temp_data, p.1.month = 2 → p.1.day = 29 →
      y0 ≤ p.1.year ∧ p.1.year ≤ y1 ∧ isLeapYear p.1.year = true)
    (hcov : ∀ y ∈ List.range (y1 + 1), y0 ≤ y → isLeapYear y = true →
      NDate.mk y 2 29 ∈ temp_data.map Prod.fst) :
    (process_nasa_data temp_data tmax tmin pr wd 2 29).length
      = ((List.range (y1 + 1)).filter (fun y => decide (y0 ≤ y) && isLeapYear y)).length := by
  rw [process_nasa_data_eq, List.length_map]
  have hdates : ∀ dt ∈ (temp_data.filter
      (fun p => decide (p.1.month = 2 ∧ p.1.day = 29))).map Prod.fst,
      dt.month = 2 ∧ dt.day = 29 := by
    intro dt hdt
    obtain ⟨p, hp, rfl⟩ := List.mem_map.mp hdt
    have := List.of_mem_filter hp
    simpa using this
  have hLnd : ((temp_data.filter
      (fun p => decide (p.1.month = 2 ∧ p.1.day = 29))).map Prod.fst).Nodup := by
    have hsub : ((temp_data.filter
        (fun p => decide (p.1.month = 2 ∧ p.1.day = 29))).map Prod.fst).Sublist
          (temp_data.map Prod.fst) :=
      (List.filter_sublist temp_data).map Prod.fst
    exact hnd.sublist hsub
  have hKnd : (((temp_data.filter
      (fun p => decide (p.1.month = 2 ∧ p.1.day = 29))).map Prod.fst).map
        (fun dt => dt.year)).Nodup := by
    apply List.Nodup.map_on ?_ hLnd
    intro x hx y hy hxy
    obtain ⟨hxm, hxd⟩ := hdates x hx
    obtain ⟨hym, hyd⟩ := hdates y hy
    cases x with
    | mk xy xm xd =>
      cases y with
      | mk yy ym yd =>
        dsimp only at hxm hxd hym hyd hxy
        subst hxm
        subst hxd
        subst hym
        subst hyd
        subst hxy
        rfl
  have hRnd : ((List.range (y1 + 1)).filter
      (fun y => decide (y0 ≤ y) && isLeapYear y)).Nodup :=
    (List.nodup_range (y1 + 1)).filter _
  have hmemKR : ∀ y : ℕ,
      y ∈ ((temp_data.filter
        (fun p => decide (p.1.month = 2 ∧ p.1.day = 29))).map Prod.fst).map
          (fun dt => dt.year)
      ↔ y ∈ (List.range (y1 + 1)).filter (fun y => decide (y0 ≤ y) && isLeapYear y) := by
    intro y
    constructor
    · intro hy
      obtain ⟨dt, hdt, rfl⟩ := List.mem_map.mp hy
      obtain ⟨p, hpL, rfl⟩ := List.mem_map.mp hdt
      have hpt := List.mem_of_mem_filter hpL
      have hcp : p.1.month = 2 ∧ p.1.day = 29 := by
        simpa using List.of_mem_filter hpL
      obtain ⟨h0, h1, hleap⟩ := hdom p hpt hcp.1 hcp.2
      apply List.mem_filter.mpr
      refine ⟨List.mem_range.mpr (by omega), ?_⟩
      simp [h0, hleap]
    · intro hy
      obtain ⟨hrange, hq⟩ := List.mem_filter.mp hy
      have hy0 : y0 ≤ y := by
        have h := hq
        simp only [Bool.and_eq_true, decide_eq_true_eq] at h
        exact h.1
      have hleap : isLeapYear y = true := by
        have h := hq
        simp only [Bool.and_eq_true, decide_eq_true_eq] at h
        exact h.2
      have hmem := hcov y hrange hy0 hleap
      obtain ⟨p, hp, hp1⟩ := List.mem_map.mp hmem
      apply List.mem_map.mpr
      refine ⟨NDate.mk y 2 29, ?_, rfl⟩
      apply List.mem_map.mpr
      refine ⟨p, ?_, hp1⟩
      apply List.mem_filter.mpr
      refine ⟨hp, ?_⟩
      rw [hp1]
      simp
  have hperm := (List.perm_ext_iff_of_nodup hKnd hRnd).mpr hmemKR
  calc (temp_data.filter (fun p => decide (p.1.month = 2 ∧ p.1.day = 29))).length
      = (((temp_data.filter
          (fun p => decide (p.1.month = 2 ∧ p.1.day = 29))).map Prod.fst).map
            (fun dt => dt.year)).length := by
        rw [List.length_map, List.length_map]
    _ = ((List.range (y1 + 1)).filter (fun y => decide (y0 ≤ y) && isLeapYear y)).length :=
        hperm.length_eq

/-- Witness for C6: in the range 3..9 only the years 4 and 8 are leap,
and only they carry a February 29 reading. -/
theorem claim_C6_witness :
    (process_nasa_data tempSeriesLeap [] [] [] [] 2 29).length
      = ((List.range 10).filter (fun y => decide (3 ≤ y) && isLeapYear y)).length :=
  claim_C6_feb29_leap_years tempSeriesLeap [] [] [] [] 3 9 (by decide) (by decide) (by decide)

/-! ### Percentile monotonicity and claim C8 -/

lemma sorted_getD_mono (s : List ℚ) (hs : List.Sorted (· ≤ ·) s) {i j : ℕ}
    (hij : i ≤ j) (hj : j < s.length) : s.getD i 0 ≤ s.getD j 0 := by
  have hi : i < s.length := lt_of_le_of_lt hij hj
  rw [List.getD_eq_getElem s 0 hi, List.getD_eq_getElem s 0 hj]
  have h2 := hs.rel_get_of_le (show (⟨i, hi⟩ : Fin s.length) ≤ (⟨j, hj⟩ : Fin s.length) from hij)
  simpa [List.get_eq_getElem] using h2

lemma interpAt_mono (s : List ℚ) (hs : List.Sorted (· ≤ ·) s) (hne : s ≠ [])
    {r1 r2 : ℚ} (h0 : 0 ≤ r1) (h12 : r1 ≤ r2) : interpAt s r1 ≤ interpAt s r2 := by
  have h02 : 0 ≤ r2 := le_trans h0 h12
  have hnpos : 0 < s.length := List.length_pos.mpr hne
  have hi12 : ⌊r1⌋₊ ≤ ⌊r2⌋₊ := Nat.floor_mono h12
  unfold interpAt
  by_cases hb2 : ⌊r2⌋₊ + 1 < s.length
  · have hb1 : ⌊r1⌋₊ + 1 < s.length := by omega
    rw [if_pos hb1, if_pos hb2]
    have hd1 : s.getD ⌊r1⌋₊ 0 ≤ s.getD (⌊r1⌋₊ + 1) 0 :=
      sorted_getD_mono s hs (Nat.le_succ _) hb1
    have hd2 : s.getD ⌊r2⌋₊ 0 ≤ s.getD (⌊r2⌋₊ + 1) 0 :=
      sorted_getD_mono s hs (Nat.le_succ _) hb2
    have hf1lo : ((⌊r1⌋₊ : ℚ)) ≤ r1 := Nat.floor_le h0
    have hf1hi : r1 < ((⌊r1⌋₊ : ℚ)) + 1 := Nat.lt_floor_add_one r1
    have hf2lo : ((⌊r2⌋₊ : ℚ)) ≤ r2 := Nat.floor_le h02
    rcases eq_or_lt_of_le hi12 with heq | hlt
    · rw [← heq]
      have hmul := mul_le_mul_of_nonneg_right
        (sub_le_sub_right h12 ((⌊r1⌋₊ : ℚ)))
        (show (0:ℚ) ≤ s.getD (⌊r1⌋₊ + 1) 0 - s.getD ⌊r1⌋₊ 0 by linarith)
      linarith
    · have hstep : ⌊r1⌋₊ + 1 ≤ ⌊r2⌋₊ := hlt
      have hmid : s.getD (⌊r1⌋₊ + 1) 0 ≤ s.getD ⌊r2⌋₊ 0 :=
        sorted_getD_mono s hs hstep (by omega)
      have hupper : s.getD ⌊r1⌋₊ 0
          + (r1 - (⌊r1⌋₊ : ℚ)) * (s.getD (⌊r1⌋₊ + 1) 0 - s.getD ⌊r1⌋₊ 0)
          ≤ s.getD (⌊r1⌋₊ + 1) 0 := by
        nlinarith
      have hlower : s.getD ⌊r2⌋₊ 0
          ≤ s.getD ⌊r2⌋₊ 0
            + (r2 - (⌊r2⌋₊ : ℚ)) * (s.getD (⌊r2⌋₊ + 1) 0 - s.getD ⌊r2⌋₊ 0) := by
        nlinarith
      linarith
  · rw [if_neg hb2]
    by_cases hb1 : ⌊r1⌋₊ + 1 < s.length
    · rw [if_pos hb1]
      have hd1 : s.getD ⌊r1⌋₊ 0 ≤ s.getD (⌊r1⌋₊ + 1) 0 :=
        sorted_getD_mono s hs (Nat.le_succ _) hb1
      have hf1lo : ((⌊r1⌋₊ : ℚ)) ≤ r1 := Nat.floor_le h0
      have hf1hi : r1 < ((⌊r1⌋₊ : ℚ)) + 1 := Nat.lt_floor_add_one r1
      have hupper : s.getD ⌊r1⌋₊ 0
          + (r1 - (⌊r1⌋₊ : ℚ)) * (s.getD (⌊r1⌋₊ + 1) 0 - s.getD ⌊r1⌋₊ 0)
          ≤ s.getD (⌊r1⌋₊ + 1) 0 := by
        nlinarith
      have hlast : s.getD (⌊r1⌋₊ + 1) 0 ≤ s.getD (s.length - 1) 0 :=
        sorted_getD_mono s hs (by omega) (by omega)
      linarith
    · rw [if_neg hb1]

lemma percentile_mono (xs : List ℚ) (hne : xs ≠ []) {p q : ℚ}
    (hp : 0 ≤ p) (hpq : p ≤ q) : percentile xs p ≤ percentile xs q := by
  have hsne : xs.insertionSort (· ≤ ·) ≠ [] := by
    intro he
    have hperm := List.perm_insertionSort (· ≤ ·) xs
    rw [he] at hperm
    exact hne (hperm.symm.eq_nil)
  have hpos : 0 < (xs.insertionSort (· ≤ ·)).length := List.length_pos.mpr hsne
  have hn1 : (0:ℚ) ≤ (((xs.insertionSort (· ≤ ·)).length : ℚ)) - 1 := by
    have h1 : (1:ℚ) ≤ (((xs.insertionSort (· ≤ ·)).length : ℚ)) := by exact_mod_cast hpos
    linarith
  show interpAt (xs.insertionSort (· ≤ ·))
      (p * ((((xs.insertionSort (· ≤ ·)).length : ℚ)) - 1) / 100)
    ≤ interpAt (xs.insertionSort (· ≤ ·))
      (q * ((((xs.insertionSort (· ≤ ·)).length : ℚ)) - 1) / 100)
  apply interpAt_mono (xs.insertionSort (· ≤ ·)) (List.sorted_insertionSort (· ≤ ·) xs) hsne
  · exact div_nonneg (mul_nonneg hp hn1) (by norm_num)
  · exact (div_le_div_iff_of_pos_right (by norm_num)).mpr
      (mul_le_mul_of_nonneg_right hpq hn1)

/-- **C8**: for a sample of size at least 2, the temperature likely
range is the pair of 25th and 75th percentiles of the raw temperature
values (linear interpolation between order statistics at rank
`p / 100 * (n - 1)`), and its lower end never exceeds its upper end. -/
theorem claim_C8_temperature_percentiles (df : List DailyRecord) (h : 2 ≤ df.length) :
    (predict_conditions df (calculate_statistics df)).temperature.likely_range_low
        = percentile (df.map (fun r => r.temperature_c)) 25
    ∧ (predict_conditions df (calculate_statistics df)).temperature.likely_range_high
        = percentile (df.map (fun r => r.temperature_c)) 75
    ∧ (predict_conditions df (calculate_statistics df)).temperature.likely_range_low
        ≤ (predict_conditions df (calculate_statistics df)).temperature.likely_range_high := by
  have hne : df.map (fun r => r.temperature_c) ≠ [] := by
    intro he
    have hlen := congrArg List.length he
    simp only [List.length_map, List.length_nil] at hlen
    omega
  refine ⟨rfl, rfl, ?_⟩
  show percentile (df.map (fun r => r.temperature_c)) 25
      ≤ percentile (df.map (fun r => r.temperature_c)) 75
  exact percentile_mono _ hne (by norm_num) (by norm_num)

/-- Witness for C8 at a concrete two-observation sample. -/
theorem claim_C8_witness :
    (predict_conditions [sampleRec, sampleRec2]
        (calculate_statistics [sampleRec, sampleRec2])).temperature.likely_range_low
      ≤ (predict_conditions [sampleRec, sampleRec2]
        (calculate_statistics [sampleRec, sampleRec2])).temperature.likely_range_high :=
  (claim_C8_temperature_percentiles [sampleRec, sampleRec2] (by simp)).2.2
